import Mathlib

/-!
# Verification of the ListenBrainz → Spotify history converter

A shallow embedding of `main.py` (the matching / resolution engine and the
conversion pipeline) together with proofs of the specification claims.

Modelling conventions:
* Python strings are Lean `String`s; the helpers below operate on `String.data`
  (a `List Char`).  Python's `str.lower` is modelled on its ASCII fragment,
  which is the only fragment that can survive the `[^a-z0-9 ]` filter of
  `normalize_string`.
* The regular-expression substitutions of the source are modelled by
  executable scanning functions with the exact leftmost / greedy / lazy
  semantics of Python's `re.sub` for the concrete patterns appearing in the
  source.  The scanners take a fuel argument (the length of the scanned list)
  so that every definition is kernel-reducible; each successful match consumes
  at least one character, so the fuel is never exhausted.
* The remote search endpoint is modelled as a deterministic `Oracle` mapping a
  query string to either an exception or a status code with a parsed item
  list; each issued request is recorded in a log.
* The JSON cache file is modelled as an association list; `save_cache`
  persists the very mapping that `load_cache` reloads, so a "subsequent run"
  is modelled by reusing the cache value returned by the previous run.
-/

/-- The whitespace class matched by Python's `\s` and stripped by
`str.strip`, restricted to ASCII. -/
def pySpace (c : Char) : Bool :=
  c == ' ' || c == '\t' || c == '\n' || c == '\r' || c == '\x0b' || c == '\x0c'

/-- `beginsWith p l` is true when `p` is an initial run of `l`
(Python `str.startswith`, also the anchored step of regex scanning). -/
def beginsWith : List Char → List Char → Bool
  | [], _ => true
  | _ :: _, [] => false
  | p :: ps, c :: cs => p == c && beginsWith ps cs

/-- Substring containment, Python's `pat in s`. -/
def containsSub (pat : List Char) : List Char → Bool
  | [] => beginsWith pat []
  | c :: cs => beginsWith pat (c :: cs) || containsSub pat cs

/-- Length of the maximal whitespace run at the front (greedy `\s*`). -/
def spaceRunLen : List Char → Nat
  | [] => 0
  | c :: cs => if pySpace c then spaceRunLen cs + 1 else 0

/-- Index of the first occurrence of `stop` that is not preceded by a
newline: the extent of a lazy `.*?` followed by the literal `stop`, with `.`
not matching `'\n'`. -/
def findStop (stop : Char) : List Char → Option Nat
  | [] => none
  | c :: cs =>
    if c = stop then some 0
    else if c = '\n' then none
    else (findStop stop cs).map (fun k => k + 1)

/-- Length of a match of `\s*\(feat\.?.*?\)` anchored at the front of `s`
(`none` when there is no match at this position).  The optional `\.?` and the
lazy `.*?` together extend exactly to the first `')'` reachable without
crossing a newline. -/
def matchFeatLen (s : List Char) : Option Nat :=
  let w := spaceRunLen s
  if beginsWith ['(', 'f', 'e', 'a', 't'] (List.drop w s) then
    (findStop ')' (List.drop (w + 5) s)).map (fun k => w + 5 + k + 1)
  else none

/-- Length of a match of `\s*\[.*?\]` anchored at the front of `s`. -/
def matchBracketLen (s : List Char) : Option Nat :=
  let w := spaceRunLen s
  if beginsWith ['['] (List.drop w s) then
    (findStop ']' (List.drop (w + 1) s)).map (fun k => w + 1 + k + 1)
  else none

/-- Length of a match of `\s*\(.*?\)|\[.*?\]` anchored at the front of `s`
(the alternate-track transform of `try_alternate_queries`); the first
alternative is tried before the second, as in Python's regex engine. -/
def matchAltLen (s : List Char) : Option Nat :=
  let w := spaceRunLen s
  match (if beginsWith ['('] (List.drop w s) then
           (findStop ')' (List.drop (w + 1) s)).map (fun k => w + 1 + k + 1)
         else none) with
  | some n => some n
  | none =>
    if beginsWith ['['] s then
      (findStop ']' (List.drop 1 s)).map (fun k => 1 + k + 1)
    else none

/-- `re.sub(pattern, "", s)` for an anchored matcher `m`: scan left to right,
deleting each leftmost match and resuming after it.  Every successful match
consumes at least one character, so fuel `s.length` is never exhausted. -/
def reSubAllF (m : List Char → Option Nat) : Nat → List Char → List Char
  | 0, s => s
  | _ + 1, [] => []
  | f + 1, c :: cs =>
    match m (c :: cs) with
    | some n => reSubAllF m f (List.drop n (c :: cs))
    | none => c :: reSubAllF m f cs

/-- `re.sub(r"\s*\(feat\.?.*?\)", "", s)`. -/
def subFeat (s : List Char) : List Char := reSubAllF matchFeatLen s.length s

/-- `re.sub(r"\s*\[.*?\]", "", s)`. -/
def subBracket (s : List Char) : List Char := reSubAllF matchBracketLen s.length s

/-- `re.sub(r"\s*\(.*?\)|\[.*?\]", "", s)`. -/
def subAlt (s : List Char) : List Char := reSubAllF matchAltLen s.length s

/-- The character class kept by `re.sub(r"[^a-z0-9 ]", "", s)`:
codepoints `a`–`z`, `0`–`9` and the space. -/
def alnumSpace (c : Char) : Bool :=
  (97 ≤ c.toNat && c.toNat ≤ 122) || (48 ≤ c.toNat && c.toNat ≤ 57) || c.toNat == 32

/-- `re.sub(r"\s+", " ", s)`: every maximal whitespace run becomes a single
space.  Formulated with one character of lookahead so that the recursion is
structural: inside a run, all but the last character are dropped and the last
one is emitted as `' '`. -/
def collapseWs : List Char → List Char
  | [] => []
  | [c] => if pySpace c then [' '] else [c]
  | c :: d :: cs =>
    if pySpace c && pySpace d then collapseWs (d :: cs)
    else (if pySpace c then ' ' else c) :: collapseWs (d :: cs)

/-- Python `str.strip()`: drop whitespace from both ends. -/
def stripL (s : List Char) : List Char :=
  ((s.dropWhile pySpace).reverse.dropWhile pySpace).reverse

/-- Python `str.lower()` on the ASCII letters (the only case-mapping that can
produce characters surviving the later `[^a-z0-9 ]` filter). -/
def lowerChar (c : Char) : Char :=
  if 65 ≤ c.toNat ∧ c.toNat ≤ 90 then Char.ofNat (c.toNat + 32) else c

/-- The body of `normalize_string` on character lists: lower-case, drop
`(feat...)` clauses, drop `[...]` segments, keep only `[a-z0-9 ]`, collapse
whitespace runs, strip the ends. -/
def normList (s : List Char) : List Char :=
  stripL (collapseWs (List.filter alnumSpace (subBracket (subFeat (List.map lowerChar s)))))

/-- `normalize_string` from the source (`main.py`, lines 46–52). -/
def normalize_string (s : String) : String := ⟨normList s.data⟩

/-- Python `str.strip()` on strings. -/
def pyStrip (s : String) : String := ⟨stripL s.data⟩

/-- `s.split(pat)[0]`: the part of `s` before the first occurrence of the
(non-empty) separator `pat`, the whole of `s` when `pat` does not occur. -/
def splitFirst (pat : List Char) : List Char → List Char
  | [] => []
  | c :: cs => if beginsWith pat (c :: cs) then [] else c :: splitFirst pat cs

/-- Python `str.replace(pat, rep)` (all non-overlapping occurrences, left to
right); the fuel is the length of the scanned list and, for a non-empty
pattern, is never exhausted. -/
def replaceAllF (pat rep : List Char) : Nat → List Char → List Char
  | 0, s => s
  | _ + 1, [] => []
  | f + 1, c :: cs =>
    if beginsWith pat (c :: cs) then
      rep ++ replaceAllF pat rep f (List.drop pat.length (c :: cs))
    else c :: replaceAllF pat rep f cs

/-- `s.replace(pat, rep)` on strings. -/
def replaceStr (s pat rep : String) : String :=
  ⟨replaceAllF pat.data rep.data s.data.length s.data⟩

/-- `s.split(sep)[-1]`: the segment after the last occurrence of `sep`. -/
def lastSegmentAux (sep : Char) : List Char → List Char → List Char
  | acc, [] => acc.reverse
  | acc, c :: cs => if c = sep then lastSegmentAux sep [] cs else lastSegmentAux sep (c :: acc) cs

/-- `s.split(sep)[-1]` on character lists. -/
def lastSegment (sep : Char) (s : List Char) : List Char := lastSegmentAux sep [] s

/-! ## The resolver: cache, network oracle, query loops -/

/-- One track item of a search response: `item["uri"]` and
`item["album"]["name"]`. -/
structure SpotItem where
  uri : String
  album : String
deriving DecidableEq

/-- The outcome of one HTTP search request: either a raised exception
(caught by the `except` clause of `query_spotify_api`) or a status code with
the parsed list `response.json()["tracks"]["items"]`. -/
inductive NetResponse where
  | error : NetResponse
  | resp : Nat → List SpotItem → NetResponse
deriving DecidableEq

/-- The remote search endpoint, as a deterministic function of the query
string (the URL is determined by the query, so the query string identifies
the request). -/
def Oracle : Type := String → NetResponse

/-- A positive cache value / resolver result:
`{"spotify_track_uri": ..., "album_name": ...}`. -/
structure ResolvedMatch where
  spotify_track_uri : String
  album_name : String
deriving DecidableEq

/-- The cache dictionary: keys map to a positive match or to the explicit
`null` tombstone (`Option ResolvedMatch`), newest binding first. -/
abbrev Cache := List (String × Option ResolvedMatch)

/-- Dictionary lookup (`key in cache` / `cache[key]` combined). -/
def cacheFind (k : String) : Cache → Option (Option ResolvedMatch)
  | [] => none
  | (k', v) :: rest => if k' = k then some v else cacheFind k rest

/-- `cache[key] = value` followed by `save_cache`; in the source this only
runs when `key` is absent, so prepending is dictionary assignment. -/
def cacheInsert (k : String) (v : Option ResolvedMatch) (c : Cache) : Cache :=
  (k, v) :: c

/-- The result of a resolver call: the returned value, the cache after all
mutations, and the network requests issued (their query strings, in order). -/
structure QueryOut where
  result : Option ResolvedMatch
  cache : Cache
  log : List String
deriving DecidableEq

/-- The three query formulations of `query_spotify_api` (lines 132–136), in
source order. -/
def queriesFor (artist track : String) : List String :=
  [track ++ " artist:" ++ artist, track ++ " " ++ artist, "track:" ++ track]

/-- The request loop of `query_spotify_api` (lines 138–158): issue each
formulation in turn; a 200 response with a non-empty item list wins and is
converted to a `ResolvedMatch` from its first item; any other status, an
empty item list, or an exception moves on to the next formulation.  Returns
the winning match (if any) and the log of issued requests. -/
def queryLoop (o : Oracle) : List String → Option ResolvedMatch × List String
  | [] => (none, [])
  | q :: rest =>
    match o q with
    | NetResponse.resp status items =>
      if status = 200 then
        match items with
        | item :: _ => (some ⟨item.uri, item.album⟩, [q])
        | [] => ((queryLoop o rest).1, q :: (queryLoop o rest).2)
      else ((queryLoop o rest).1, q :: (queryLoop o rest).2)
    | NetResponse.error => ((queryLoop o rest).1, q :: (queryLoop o rest).2)

/-- `query_spotify_api` (lines 125–163): a cache hit under
`f"{artist}|{track}"` — positive or explicit null — returns immediately with
no request; otherwise the three formulations are tried, the winning match is
stored under that same key, and exhaustion stores a `null` tombstone under
that same key. -/
def query_spotify_api (artist track : String) (o : Oracle) (cache : Cache) : QueryOut :=
  let base_key := artist ++ "|" ++ track
  match cacheFind base_key cache with
  | some v => ⟨v, cache, []⟩
  | none =>
    match queryLoop o (queriesFor artist track) with
    | (some r, log) => ⟨some r, cacheInsert base_key (some r) cache, log⟩
    | (none, log) => ⟨none, cacheInsert base_key none cache, log⟩

/-- The `alternates` list of `try_alternate_queries` (lines 109–115), in
source order: (a) the pair unchanged, (b) artist cleared, (c) artist cut at
`" feat"`, (d) parenthesised/bracketed remainder stripped from the track,
(e) `"remastered"` removed from the track. -/
def alternatesFor (artist_norm track_norm : String) : List (String × String) :=
  [(artist_norm, track_norm),
   ("", track_norm),
   (⟨splitFirst " feat".data artist_norm.data⟩, track_norm),
   (artist_norm, ⟨subAlt track_norm.data⟩),
   (artist_norm, pyStrip (replaceStr track_norm "remastered" ""))]

/-- The loop of `try_alternate_queries` (lines 116–122): skip a variant whose
stripped track is empty, otherwise query with the stripped pair; a truthy
result (a positive match — a cached or fresh `None` is falsy) returns
immediately, otherwise the loop continues with the mutated cache. -/
def tryLoop (o : Oracle) : List (String × String) → Cache → QueryOut
  | [], c => ⟨none, c, []⟩
  | (aA, aT) :: rest, c =>
    if pyStrip aT = "" then tryLoop o rest c
    else
      let q := query_spotify_api (pyStrip aA) (pyStrip aT) o c
      match q.result with
      | some r => ⟨some r, q.cache, q.log⟩
      | none =>
        let t := tryLoop o rest q.cache
        ⟨t.result, t.cache, q.log ++ t.log⟩

/-- `try_alternate_queries` (lines 108–122). -/
def try_alternate_queries (artist_norm track_norm : String) (o : Oracle) (cache : Cache) : QueryOut :=
  tryLoop o (alternatesFor artist_norm track_norm) cache

/-! ### Specification-side description of the fallback search

These definitions follow the spec's wording for the ordered fallback
protocol (variants in priority order, three formulations per variant, first
formulation returning at least one item wins); claim C4 compares the source
functions above against them. -/

/-- `track_metadata["additional_info"]`; every field is read with a silent
default in the source, so each is optional.  `listened_at` values are
non-negative epoch seconds, so durations and timestamps are `Nat`. -/
structure AdditionalInfo where
  duration_ms : Option Nat := none
  music_service : Option String := none
  spotify_id : Option String := none
deriving DecidableEq

/-- `track_metadata` of a ListenBrainz event. -/
structure TrackMetadata where
  artist_name : Option String := none
  track_name : Option String := none
  release_name : Option String := none
  additional_info : Option AdditionalInfo := none
deriving DecidableEq

/-- A well-formed input event.  A line that fails JSON parsing, or an event
whose shape makes per-event processing raise (missing `listened_at` or
`track_metadata`, wrongly-typed fields), is represented as `none` in the line
list: in the source every such failure raises before any shared state is
mutated and is caught by the per-line handler. -/
structure Entry where
  listened_at : Nat
  track_metadata : TrackMetadata
deriving DecidableEq

/-- `meta.get("additional_info", {})`. -/
def infoGet (meta : TrackMetadata) : AdditionalInfo :=
  match meta.additional_info with
  | some i => i
  | none => {}

/-- Two-digit zero-padded decimal. -/
def pad2 (n : Nat) : String := if n < 10 then "0" ++ toString n else toString n

/-- Four-digit zero-padded decimal (years). -/
def pad4 (n : Nat) : String :=
  if n < 10 then "000" ++ toString n
  else if n < 100 then "00" ++ toString n
  else if n < 1000 then "0" ++ toString n
  else toString n

/-- Gregorian date for a day count since 1970-01-01 (civil-from-days). -/
def civilFromDays (z : Nat) : Nat × Nat × Nat :=
  let z' := z + 719468
  let era := z' / 146097
  let doe := z' % 146097
  let yoe := (doe - doe / 1460 + doe / 36524 - doe / 146096) / 365
  let y := yoe + era * 400
  let doy := doe - (365 * yoe + yoe / 4 - yoe / 100)
  let mp := (5 * doy + 2) / 153
  let d := doy - (153 * mp + 2) / 5 + 1
  let m := if mp < 10 then mp + 3 else mp - 9
  (if m ≤ 2 then y + 1 else y, m, d)

/-- Modelled from the source's
`datetime.utcfromtimestamp(entry["listened_at"]).isoformat()` (a library
call): the ISO-8601 UTC rendering `YYYY-MM-DDTHH:MM:SS` of an epoch-seconds
value. -/
def epochIso (t : Nat) : String :=
  let days := t / 86400
  let secs := t % 86400
  let ymd := civilFromDays days
  pad4 ymd.1 ++ "-" ++ pad2 ymd.2.1 ++ "-" ++ pad2 ymd.2.2 ++ "T" ++
    pad2 (secs / 3600) ++ ":" ++ pad2 (secs % 3600 / 60) ++ ":" ++ pad2 (secs % 60)

/-- One output record in the target schema (the dict literals at lines 71–93
and 234–256), with the same field set and order. -/
structure OutputRecord where
  ts : String
  username : String
  platform : String
  ms_played : Nat
  conn_country : String
  ip_addr_decrypted : Option String
  user_agent_decrypted : Option String
  master_metadata_track_name : String
  master_metadata_album_artist_name : String
  master_metadata_album_album_name : String
  spotify_track_uri : Option String
  episode_name : Option String
  episode_show_name : Option String
  spotify_episode_uri : Option String
  reason_start : String
  reason_end : Option String
  shuffle : Bool
  skipped : Bool
  offline : Bool
  offline_timestamp : Nat
  incognito_mode : Bool
deriving DecidableEq

/-- The recognised track-page reference test of the fast path:
`lb_spotify_id and "open.spotify.com/track/" in lb_spotify_id` (an absent or
empty identifier is falsy; the containment test on an empty string is false
for this non-empty pattern, so Python's truthiness test agrees with it). -/
def hasTrackRef (sid? : Option String) : Bool :=
  match sid? with
  | some sid => containsSub "open.spotify.com/track/".data sid.data
  | none => false

/-- `convert_lb_entry_to_spotify_format` (lines 55–93): build a record
directly from the event, deriving the URI from the embedded identifier when
it matches the recognised track-page pattern. -/
def convert_lb_entry_to_spotify_format (entry : Entry) (username country_code : String) :
    OutputRecord :=
  let meta := entry.track_metadata
  let info := infoGet meta
  let ts_raw := epochIso entry.listened_at ++ "Z"
  let artist_raw := pyStrip (meta.artist_name.getD "")
  let track_raw := pyStrip (meta.track_name.getD "")
  let album_raw := pyStrip (meta.release_name.getD "")
  let spotify_uri :=
    match info.spotify_id with
    | some sid =>
      if containsSub "open.spotify.com/track/".data sid.data then
        some ("spotify:track:" ++ ⟨lastSegment '/' sid.data⟩)
      else none
    | none => none
  { ts := ts_raw, username := username, platform := "ListenBrainz Importer",
    ms_played := info.duration_ms.getD 0, conn_country := country_code,
    ip_addr_decrypted := none, user_agent_decrypted := none,
    master_metadata_track_name := track_raw,
    master_metadata_album_artist_name := artist_raw,
    master_metadata_album_album_name := album_raw,
    spotify_track_uri := spotify_uri, episode_name := none,
    episode_show_name := none, spotify_episode_uri := none,
    reason_start := "trackdone", reason_end := none, shuffle := false,
    skipped := false, offline := true,
    offline_timestamp := entry.listened_at * 1000, incognito_mode := false }

/-- The visible effects of processing one well-formed event: the record
appended to the output (if any), whether the skipped-Spotify counter was
bumped, the string added to the unmatched set (if any), the cache after the
event, and the network requests issued. -/
structure StepOut where
  rec? : Option OutputRecord
  skippedSpotify : Bool
  unknown? : Option String
  cache : Cache
  log : List String
deriving DecidableEq

/-- The per-event body of `convert_with_spotify_api` (lines 190–259):
skip events whose `music_service` is `"spotify.com"`; take the fast path for
events with a recognised embedded track reference; otherwise resolve through
`try_alternate_queries` and build the record from the result, falling back to
the raw album, a null URI and an unmatched-set entry on a null result. -/
def processEntry (entry : Entry) (username country_code : String) (o : Oracle)
    (cache : Cache) : StepOut :=
  let meta := entry.track_metadata
  let info := infoGet meta
  if info.music_service = some "spotify.com" then
    ⟨none, true, none, cache, []⟩
  else
    let ts_raw := epochIso entry.listened_at ++ "Z"
    let artist_raw := pyStrip (meta.artist_name.getD "")
    let track_raw := pyStrip (meta.track_name.getD "")
    let album_raw := pyStrip (meta.release_name.getD "")
    let artist_norm := normalize_string artist_raw
    let track_norm := normalize_string track_raw
    if hasTrackRef info.spotify_id then
      ⟨some (convert_lb_entry_to_spotify_format entry username country_code),
       false, none, cache, []⟩
    else
      let q := try_alternate_queries artist_norm track_norm o cache
      match q.result with
      | some m =>
        ⟨some { ts := ts_raw, username := username, platform := "ListenBrainz Importer",
                ms_played := info.duration_ms.getD 0, conn_country := country_code,
                ip_addr_decrypted := none, user_agent_decrypted := none,
                master_metadata_track_name := track_raw,
                master_metadata_album_artist_name := artist_raw,
                master_metadata_album_album_name := m.album_name,
                spotify_track_uri := some m.spotify_track_uri, episode_name := none,
                episode_show_name := none, spotify_episode_uri := none,
                reason_start := "trackdone", reason_end := none, shuffle := false,
                skipped := false, offline := true,
                offline_timestamp := entry.listened_at * 1000, incognito_mode := false },
         false, none, q.cache, q.log⟩
      | none =>
        ⟨some { ts := ts_raw, username := username, platform := "ListenBrainz Importer",
                ms_played := info.duration_ms.getD 0, conn_country := country_code,
                ip_addr_decrypted := none, user_agent_decrypted := none,
                master_metadata_track_name := track_raw,
                master_metadata_album_artist_name := artist_raw,
                master_metadata_album_album_name := album_raw,
                spotify_track_uri := none, episode_name := none,
                episode_show_name := none, spotify_episode_uri := none,
                reason_start := "trackdone", reason_end := none, shuffle := false,
                skipped := false, offline := true,
                offline_timestamp := entry.listened_at * 1000, incognito_mode := false },
         false, some (artist_raw ++ " – " ++ track_raw), q.cache, q.log⟩

/-- The run state accumulated by `convert_with_spotify_api`. -/
structure RunOut where
  output_data : List OutputRecord
  unknowns : List String
  processed_count : Nat
  skipped_spotify : Nat
  cache : Cache
  log : List String
deriving DecidableEq

/-- Fold one event's effects into the run state (the mutations performed by
the loop body at lines 194–259). -/
def stepState (st : RunOut) (s : StepOut) : RunOut :=
  { output_data := st.output_data ++ s.rec?.toList,
    unknowns := st.unknowns ++ s.unknown?.toList,
    processed_count := st.processed_count + (if s.rec?.isSome then 1 else 0),
    skipped_spotify := st.skipped_spotify + (if s.skippedSpotify then 1 else 0),
    cache := s.cache,
    log := st.log ++ s.log }

/-- The line loop of `convert_with_spotify_api` (lines 186–265): a `none`
line is a malformed line or event — its exception is caught, logged, and the
loop continues with the state untouched. -/
def convertLoop (username country_code : String) (o : Oracle) :
    List (Option Entry) → RunOut → RunOut
  | [], st => st
  | none :: rest, st => convertLoop username country_code o rest st
  | some e :: rest, st =>
    convertLoop username country_code o rest
      (stepState st (processEntry e username country_code o st.cache))

/-- `convert_with_spotify_api` (lines 174–298) restricted to its pure core:
fold all input lines over the initial state (empty accumulators, the cache
returned by `load_cache`).  Directory walking, file output and console
statistics are external collaborators. -/
def convert_with_spotify_api (lines : List (Option Entry))
    (username country_code : String) (o : Oracle) (initial_cache : Cache) : RunOut :=
  convertLoop username country_code o lines ⟨[], [], 0, 0, initial_cache, []⟩

/-- No two adjacent whitespace characters. -/
def SpRel (a b : Char) : Prop := pySpace a = false ∨ pySpace b = false

/-- The shape invariant of `normalize_string` output. -/
def Canonical (l : List Char) : Prop :=
  (∀ c ∈ l, alnumSpace c = true) ∧ l.Chain' SpRel ∧
    (∀ c, l.head? = some c → pySpace c = false) ∧
    (∀ c, l.getLast? = some c → pySpace c = false)

/-! ## Concrete fixtures used by counterexamples and witnesses -/

/-- A stub endpoint that answers every request with an empty result list. -/
def oracleEmpty : Oracle := fun _ => NetResponse.resp 200 []

/-- A stub endpoint that only answers the artist-less first formulation
`"t artist:"` (the first formulation of variant (b) for the pair
`("a", "t")`). -/
def oracleC1 : Oracle := fun q =>
  if q = "t artist:" then NetResponse.resp 200 [⟨"u1", "al1"⟩]
  else NetResponse.resp 200 []

/-- A stub endpoint whose first formulation returns an empty item list and
whose second formulation `"t a"` matches. -/
def oracleC2 : Oracle := fun q =>
  if q = "t a" then NetResponse.resp 200 [⟨"u2", "al2"⟩]
  else NetResponse.resp 200 []

/-- An event carrying a direct track-page reference. -/
def entryC6 : Entry :=
  { listened_at := 1700000000,
    track_metadata :=
      { artist_name := some "A", track_name := some "T", release_name := some "R",
        additional_info := some { duration_ms := some 1000, music_service := none,
                                  spotify_id := some "https://open.spotify.com/track/abc" } } }

/-- The end-to-end example event of the spec. -/
def entryBeatles : Entry :=
  { listened_at := 1700000000,
    track_metadata :=
      { artist_name := some "The Beatles", track_name := some "Let It Be",
        release_name := none,
        additional_info := some { duration_ms := some 243000 } } }

/-- A stub endpoint answering the first formulation of the first variant for
the example event. -/
def oracleBeatles : Oracle := fun q =>
  if q = "let it be artist:the beatles" then
    NetResponse.resp 200 [⟨"spotify:track:abc123", "Let It Be"⟩]
  else NetResponse.resp 200 []

/-- The record the pipeline produces for `entryBeatles` under
`oracleBeatles`. -/
def recBeatles : OutputRecord :=
  { ts := "2023-11-14T22:13:20Z", username := "user", platform := "ListenBrainz Importer",
    ms_played := 243000, conn_country := "XX", ip_addr_decrypted := none,
    user_agent_decrypted := none, master_metadata_track_name := "Let It Be",
    master_metadata_album_artist_name := "The Beatles",
    master_metadata_album_album_name := "Let It Be",
    spotify_track_uri := some "spotify:track:abc123", episode_name := none,
    episode_show_name := none, spotify_episode_uri := none, reason_start := "trackdone",
    reason_end := none, shuffle := false, skipped := false, offline := true,
    offline_timestamp := 1700000000000, incognito_mode := false }

/-- An event sourced from Spotify itself. -/
def entrySpot : Entry :=
  { listened_at := 5,
    track_metadata := { additional_info := some { music_service := some "spotify.com" } } }

/-- An event that is Spotify-sourced *and* carries a recognised embedded
track reference. -/
def entryC6skip : Entry :=
  { listened_at := 7,
    track_metadata :=
      { additional_info := some { music_service := some "spotify.com",
                                  spotify_id := some "https://open.spotify.com/track/xyz" } } }

/-! ## Evaluation checks of the string helpers -/

example : normalize_string "Song (feat. X) [Remix]" = "song" := rfl
example : pyStrip "  a b  " = "a b" := rfl
example : ⟨splitFirst " feat".data "x feat y".data⟩ = ("x" : String) := rfl
example : ⟨subAlt "t (v) remastered".data⟩ = ("t remastered" : String) := rfl
example : ⟨lastSegment '/' "https://open.spotify.com/track/abc".data⟩ = ("abc" : String) := rfl
example : replaceStr "a remastered b" "remastered" "" = "a  b" := rfl
example : epochIso 1700000000 = "2023-11-14T22:13:20" := rfl
example : epochIso 0 = "1970-01-01T00:00:00" := rfl
example : epochIso 951827696 = "2000-02-29T12:34:56" := rfl
example : epochIso 86399 = "1970-01-01T23:59:59" := rfl

/-! ## Canonical shape of `normalize_string` output

The output of `normalize_string` contains only `[a-z0-9 ]` characters, never
two adjacent spaces, and no space at either end; every stage of the pipeline
is the identity on strings of that shape, which gives idempotence. -/

theorem beginsWith_head_mem {p : Char} {ps l : List Char}
    (h : beginsWith (p :: ps) l = true) : p ∈ l := by
  cases l with
  | nil => cases h
  | cons c cs =>
    simp only [beginsWith, Bool.and_eq_true, beq_iff_eq] at h
    rw [h.1]
    exact List.mem_cons_self c cs

theorem matchFeatLen_eq_none {s : List Char} (h : '(' ∉ s) : matchFeatLen s = none := by
  have hb : beginsWith ['(', 'f', 'e', 'a', 't'] (List.drop (spaceRunLen s) s) = false := by
    cases hc : beginsWith ['(', 'f', 'e', 'a', 't'] (List.drop (spaceRunLen s) s)
    · rfl
    · exact absurd (List.drop_subset _ _ (beginsWith_head_mem hc)) h
  simp [matchFeatLen, hb]

theorem matchBracketLen_eq_none {s : List Char} (h : '[' ∉ s) : matchBracketLen s = none := by
  have hb : beginsWith ['['] (List.drop (spaceRunLen s) s) = false := by
    cases hc : beginsWith ['['] (List.drop (spaceRunLen s) s)
    · rfl
    · exact absurd (List.drop_subset _ _ (beginsWith_head_mem hc)) h
  simp [matchBracketLen, hb]

theorem matchAltLen_eq_none {s : List Char} (h1 : '(' ∉ s) (h2 : '[' ∉ s) :
    matchAltLen s = none := by
  have hb1 : beginsWith ['('] (List.drop (spaceRunLen s) s) = false := by
    cases hc : beginsWith ['('] (List.drop (spaceRunLen s) s)
    · rfl
    · exact absurd (List.drop_subset _ _ (beginsWith_head_mem hc)) h1
  have hb2 : beginsWith ['['] s = false := by
    cases hc : beginsWith ['['] s
    · rfl
    · exact absurd (beginsWith_head_mem hc) h2
  simp [matchAltLen, hb1, hb2]

theorem reSubAllF_id (m : List Char → Option Nat) (P : Char → Prop)
    (hm : ∀ t : List Char, (∀ c ∈ t, P c) → m t = none) :
    ∀ (f : Nat) (s : List Char), (∀ c ∈ s, P c) → reSubAllF m f s = s := by
  intro f
  induction f with
  | zero => intro s _; rfl
  | succ f ih =>
    intro s hs
    cases s with
    | nil => rfl
    | cons c cs =>
      simp only [reSubAllF, hm (c :: cs) hs]
      rw [ih cs (fun d hd => hs d (List.mem_cons_of_mem c hd))]

theorem subFeat_id {s : List Char} (h : '(' ∉ s) : subFeat s = s :=
  reSubAllF_id matchFeatLen (fun c => c ≠ '(')
    (fun _ ht => matchFeatLen_eq_none (fun hc => ht '(' hc rfl))
    s.length s (fun _ hc he => h (he ▸ hc))

theorem subBracket_id {s : List Char} (h : '[' ∉ s) : subBracket s = s :=
  reSubAllF_id matchBracketLen (fun c => c ≠ '[')
    (fun _ ht => matchBracketLen_eq_none (fun hc => ht '[' hc rfl))
    s.length s (fun _ hc he => h (he ▸ hc))

theorem subAlt_id {s : List Char} (h1 : '(' ∉ s) (h2 : '[' ∉ s) : subAlt s = s :=
  reSubAllF_id matchAltLen (fun c => c ≠ '(' ∧ c ≠ '[')
    (fun _ ht => matchAltLen_eq_none (fun hc => (ht '(' hc).1 rfl) (fun hc => (ht '[' hc).2 rfl))
    s.length s (fun _ hc => ⟨fun he => h1 (he ▸ hc), fun he => h2 (he ▸ hc)⟩)

theorem mem_collapseWs : ∀ {l : List Char} {c : Char}, c ∈ collapseWs l → c = ' ' ∨ c ∈ l := by
  intro l
  induction l with
  | nil => intro c h; cases h
  | cons a t ih =>
    intro c h
    cases t with
    | nil =>
      cases hpa : pySpace a
      · simp [collapseWs, hpa] at h
        exact Or.inr (by rw [h]; exact List.mem_cons_self a [])
      · simp [collapseWs, hpa] at h
        exact Or.inl h
    | cons b t2 =>
      cases hab : pySpace a && pySpace b
      · simp only [collapseWs, hab, Bool.false_eq_true, if_false] at h
        rcases List.mem_cons.mp h with h' | h'
        · cases hpa : pySpace a
          · rw [hpa] at h'
            simp at h'
            exact Or.inr (by rw [h']; exact List.mem_cons_self a _)
          · rw [hpa] at h'
            simp at h'
            exact Or.inl h'
        · rcases ih h' with h'' | h''
          · exact Or.inl h''
          · exact Or.inr (List.mem_cons_of_mem a h'')
      · simp only [collapseWs, hab, if_true] at h
        rcases ih h with h'' | h''
        · exact Or.inl h''
        · exact Or.inr (List.mem_cons_of_mem a h'')

theorem head?_collapseWs {d : Char} (cs : List Char) (hd : pySpace d = false) :
    (collapseWs (d :: cs)).head? = some d := by
  cases cs with
  | nil => simp [collapseWs, hd]
  | cons e t =>
    have hde : (pySpace d && pySpace e) = false := by simp [hd]
    simp [collapseWs, hde, hd]

theorem chain'_collapseWs : ∀ l : List Char, (collapseWs l).Chain' SpRel := by
  intro l
  induction l with
  | nil => simp [collapseWs]
  | cons a t ih =>
    cases t with
    | nil =>
      cases hpa : pySpace a <;> simp [collapseWs, hpa]
    | cons b t2 =>
      cases hab : pySpace a && pySpace b
      · rw [show collapseWs (a :: b :: t2) =
            (if pySpace a then ' ' else a) :: collapseWs (b :: t2) from by
          simp [collapseWs, hab]]
        rw [List.chain'_cons']
        refine ⟨?_, ih⟩
        intro y hy
        cases hpa : pySpace a
        · simp only [hpa, Bool.false_eq_true, if_false]
          exact Or.inl hpa
        · have hb : pySpace b = false := by
            cases hpb : pySpace b
            · rfl
            · rw [hpa, hpb] at hab
              cases hab
          simp only [hpa, if_true]
          rw [head?_collapseWs t2 hb, Option.mem_def, Option.some_inj] at hy
          rw [← hy]
          exact Or.inr hb
      · simpa only [collapseWs, hab, if_true] using ih

theorem head?_dropWhile_false {p : Char → Bool} {l : List Char} {c : Char}
    (h : (l.dropWhile p).head? = some c) : p c = false := by
  have hh := List.head?_dropWhile_not p l
  rw [h] at hh
  exact hh

theorem dropWhile_eq_self_of_head {p : Char → Bool} {l : List Char}
    (h : ∀ c, l.head? = some c → p c = false) : l.dropWhile p = l := by
  cases l with
  | nil => rfl
  | cons a t => exact List.dropWhile_cons_of_neg (by simp [h a rfl])

theorem getLast?_dropWhile {p : Char → Bool} {l : List Char}
    (h : l.dropWhile p ≠ []) : (l.dropWhile p).getLast? = l.getLast? := by
  induction l with
  | nil => simp at h
  | cons a t ih =>
    by_cases hp : p a = true
    · rw [List.dropWhile_cons_of_pos hp] at h ⊢
      rw [ih h]
      cases t with
      | nil => simp at h
      | cons b t2 => exact List.getLast?_cons_cons.symm
    · rw [List.dropWhile_cons_of_neg hp]

theorem mem_stripL {l : List Char} {c : Char} (h : c ∈ stripL l) : c ∈ l := by
  unfold stripL at h
  rw [List.mem_reverse] at h
  replace h := List.dropWhile_subset pySpace h
  rw [List.mem_reverse] at h
  exact List.dropWhile_subset pySpace h

theorem head?_stripL {l : List Char} {c : Char} (h : (stripL l).head? = some c) :
    pySpace c = false := by
  unfold stripL at h
  rw [List.head?_reverse] at h
  by_cases hne : ((l.dropWhile pySpace).reverse).dropWhile pySpace = []
  · rw [hne] at h
    cases h
  · rw [getLast?_dropWhile hne, List.getLast?_reverse] at h
    exact head?_dropWhile_false h

theorem getLast?_stripL {l : List Char} {c : Char} (h : (stripL l).getLast? = some c) :
    pySpace c = false := by
  unfold stripL at h
  rw [List.getLast?_reverse] at h
  exact head?_dropWhile_false h

theorem chain'_stripL {l : List Char} (h : l.Chain' SpRel) : (stripL l).Chain' SpRel := by
  unfold stripL
  have h1 : (l.dropWhile pySpace).Chain' SpRel := h.suffix (List.dropWhile_suffix pySpace)
  have h2 : ((l.dropWhile pySpace).reverse).Chain' SpRel := by
    rw [List.chain'_reverse]
    exact h1.imp fun a b hab => hab.symm
  have h3 := h2.suffix (List.dropWhile_suffix pySpace)
  rw [List.chain'_reverse]
  exact h3.imp fun a b hab => hab.symm

theorem stripL_id {l : List Char}
    (h1 : ∀ c, l.head? = some c → pySpace c = false)
    (h2 : ∀ c, l.getLast? = some c → pySpace c = false) : stripL l = l := by
  unfold stripL
  rw [dropWhile_eq_self_of_head h1]
  rw [dropWhile_eq_self_of_head (fun c hc => h2 c (by rwa [List.head?_reverse] at hc))]
  exact List.reverse_reverse l

theorem space_of_alnum {c : Char} (h1 : alnumSpace c = true) (h2 : pySpace c = true) :
    c = ' ' := by
  simp only [pySpace, Bool.or_eq_true, beq_iff_eq] at h2
  rcases h2 with ((((h | h) | h) | h) | h) | h
  · exact h
  all_goals (subst h; exact absurd h1 (by decide))

theorem collapseWs_id : ∀ {l : List Char}, (∀ c ∈ l, alnumSpace c = true) →
    l.Chain' SpRel → collapseWs l = l := by
  intro l
  induction l with
  | nil => intro _ _; rfl
  | cons a t ih =>
    intro hmem hch
    cases t with
    | nil =>
      cases hpa : pySpace a
      · simp [collapseWs, hpa]
      · have ha : a = ' ' := space_of_alnum (hmem a (List.mem_cons_self a [])) hpa
        simp [collapseWs, hpa, ha]
    | cons b t2 =>
      rw [List.chain'_cons] at hch
      have hab : (pySpace a && pySpace b) = false := by
        rcases hch.1 with h | h <;> simp [h]
      rw [show collapseWs (a :: b :: t2) =
          (if pySpace a then ' ' else a) :: collapseWs (b :: t2) from by
        simp [collapseWs, hab]]
      rw [ih (fun c hc => hmem c (List.mem_cons_of_mem a hc)) hch.2]
      cases hpa : pySpace a
      · simp [hpa]
      · have ha : a = ' ' := space_of_alnum (hmem a (List.mem_cons_self a _)) hpa
        simp [hpa, ha]

theorem map_lowerChar_id {l : List Char} (h : ∀ c ∈ l, alnumSpace c = true) :
    l.map lowerChar = l := by
  induction l with
  | nil => rfl
  | cons a t ih =>
    have ha : lowerChar a = a := by
      have haa := h a (List.mem_cons_self a t)
      simp only [alnumSpace, Bool.or_eq_true, Bool.and_eq_true, decide_eq_true_eq,
        beq_iff_eq] at haa
      unfold lowerChar
      rcases haa with (⟨h1, h2⟩ | ⟨h1, h2⟩) | h1 <;> exact if_neg (by omega)
    simp only [List.map_cons, ha, ih (fun c hc => h c (List.mem_cons_of_mem a hc))]

theorem alnum_no_paren {l : List Char} (h : ∀ c ∈ l, alnumSpace c = true) : '(' ∉ l :=
  fun hc => absurd (h '(' hc) (by decide)

theorem alnum_no_bracket {l : List Char} (h : ∀ c ∈ l, alnumSpace c = true) : '[' ∉ l :=
  fun hc => absurd (h '[' hc) (by decide)

theorem canonical_normList (s : List Char) : Canonical (normList s) := by
  refine ⟨?_, ?_, ?_, ?_⟩
  · intro c hc
    rcases mem_collapseWs (mem_stripL hc) with h | h
    · rw [h]; decide
    · exact List.of_mem_filter h
  · exact chain'_stripL (chain'_collapseWs _)
  · intro c hc
    exact head?_stripL hc
  · intro c hc
    exact getLast?_stripL hc

theorem normList_idem (s : List Char) : normList (normList s) = normList s := by
  obtain ⟨hmem, hch, hhd, htl⟩ := canonical_normList s
  conv_lhs => rw [normList]
  rw [map_lowerChar_id hmem, subFeat_id (alnum_no_paren hmem),
    subBracket_id (alnum_no_bracket hmem), List.filter_eq_self.mpr hmem,
    collapseWs_id hmem hch]
  exact stripL_id hhd htl

/-! ## Cache behaviour of `query_spotify_api` and `try_alternate_queries` -/

theorem query_hit (artist track : String) (o : Oracle) (c : Cache)
    (v : Option ResolvedMatch) (h : cacheFind (artist ++ "|" ++ track) c = some v) :
    query_spotify_api artist track o c = ⟨v, c, []⟩ := by
  simp only [query_spotify_api, h]

theorem query_miss (artist track : String) (o : Oracle) (c : Cache)
    (h : cacheFind (artist ++ "|" ++ track) c = none) :
    query_spotify_api artist track o c =
      ⟨(queryLoop o (queriesFor artist track)).1,
       cacheInsert (artist ++ "|" ++ track) (queryLoop o (queriesFor artist track)).1 c,
       (queryLoop o (queriesFor artist track)).2⟩ := by
  simp only [query_spotify_api, h]
  rcases hq : queryLoop o (queriesFor artist track) with ⟨r, log⟩
  cases r <;> simp

theorem cacheFind_query (k : String) (v : Option ResolvedMatch)
    (artist track : String) (o : Oracle) (c : Cache) (h : cacheFind k c = some v) :
    cacheFind k (query_spotify_api artist track o c).cache = some v := by
  by_cases hb : cacheFind (artist ++ "|" ++ track) c = none
  · rw [query_miss artist track o c hb]
    have hne : artist ++ "|" ++ track ≠ k := by
      intro he
      rw [he, h] at hb
      cases hb
    simp only [cacheInsert, cacheFind, if_neg hne]
    exact h
  · obtain ⟨w, hw⟩ := Option.ne_none_iff_exists'.mp hb
    rw [query_hit artist track o c w hw]
    exact h

theorem query_decides (artist track : String) (o : Oracle) (c : Cache) :
    cacheFind (artist ++ "|" ++ track) (query_spotify_api artist track o c).cache =
      some (query_spotify_api artist track o c).result := by
  by_cases hb : cacheFind (artist ++ "|" ++ track) c = none
  · rw [query_miss artist track o c hb]
    simp [cacheInsert, cacheFind]
  · obtain ⟨w, hw⟩ := Option.ne_none_iff_exists'.mp hb
    rw [query_hit artist track o c w hw]
    exact hw

theorem query_idem (artist track : String) (o : Oracle) (c : Cache) :
    query_spotify_api artist track o ((query_spotify_api artist track o c).cache) =
      ⟨(query_spotify_api artist track o c).result,
       (query_spotify_api artist track o c).cache, []⟩ :=
  query_hit _ _ _ _ _ (query_decides artist track o c)

theorem cacheFind_tryLoop (k : String) (v : Option ResolvedMatch)
    (vs : List (String × String)) (o : Oracle) (c : Cache) (h : cacheFind k c = some v) :
    cacheFind k (tryLoop o vs c).cache = some v := by
  induction vs generalizing c with
  | nil => exact h
  | cons hd rest ih =>
    obtain ⟨aA, aT⟩ := hd
    by_cases hs : pyStrip aT = ""
    · simpa only [tryLoop, if_pos hs] using ih c h
    · simp only [tryLoop, if_neg hs]
      cases hr : (query_spotify_api (pyStrip aA) (pyStrip aT) o c).result with
      | some r => exact cacheFind_query k v _ _ o c h
      | none => exact ih _ (cacheFind_query k v _ _ o c h)

theorem tryLoop_idem (vs : List (String × String)) (o : Oracle) (c : Cache) :
    tryLoop o vs ((tryLoop o vs c).cache) =
      ⟨(tryLoop o vs c).result, (tryLoop o vs c).cache, []⟩ := by
  induction vs generalizing c with
  | nil => rfl
  | cons hd rest ih =>
    obtain ⟨aA, aT⟩ := hd
    by_cases hs : pyStrip aT = ""
    · simpa only [tryLoop, if_pos hs] using ih c
    · simp only [tryLoop, if_neg hs]
      cases hr : (query_spotify_api (pyStrip aA) (pyStrip aT) o c).result with
      | some r =>
        simp only [hr]
        rw [query_idem]
        simp only [hr]
      | none =>
        simp only [hr]
        have hq2 : query_spotify_api (pyStrip aA) (pyStrip aT) o
            ((tryLoop o rest (query_spotify_api (pyStrip aA) (pyStrip aT) o c).cache).cache) =
            ⟨none, (tryLoop o rest (query_spotify_api (pyStrip aA) (pyStrip aT) o c).cache).cache, []⟩ := by
          apply query_hit
          have h1 := query_decides (pyStrip aA) (pyStrip aT) o c
          rw [hr] at h1
          exact cacheFind_tryLoop _ _ rest o _ h1
        rw [hq2]
        simp only
        rw [ih]
        simp

/-! ## The request schedule of a fresh resolve call -/

/-- C3: `normalize_string` is a total deterministic function on strings (it
is a Lean function) and idempotent: for every string `x`,
`normalize_string (normalize_string x) = normalize_string x`; in particular
`normalize_string "Song (feat. X) [Remix]"` removes the feat-clause and the
bracketed tag and lower-cases the rest, yielding `"song"`. -/
theorem C3_normalize_idempotent :
    (∀ x : String, normalize_string (normalize_string x) = normalize_string x) ∧
      normalize_string "Song (feat. X) [Remix]" = "song" :=
  ⟨fun x => congrArg String.mk (normList_idem x.data), rfl⟩

/-- C10: for a track string already in normalized form (an output of
`normalize_string`, hence containing only lowercase letters, digits and
spaces), variant (d) of the alternates list — stripping parenthesised and
bracketed remainders from the track again — is the identity transform, so
entry 3 of `alternatesFor` (variant (d)) is the same (artist, track) pair as
entry 0 (variant (a)) and can never match anything variant (a) did not. -/
theorem C10_variant_d_is_base (artist_norm tr : String) :
    (alternatesFor artist_norm (normalize_string tr))[3]? =
      (alternatesFor artist_norm (normalize_string tr))[0]? := by
  obtain ⟨hmem, -, -, -⟩ := canonical_normList tr.data
  have h4 : subAlt (normList tr.data) = normList tr.data :=
    subAlt_id (alnum_no_paren hmem) (alnum_no_bracket hmem)
  simp only [alternatesFor, List.getElem?_cons_succ, List.getElem?_cons_zero]
  exact congrArg (fun z => some (artist_norm, z)) (congrArg String.mk h4)

/-- C5: when the normalized track string is empty, every variant's track
string is empty after stripping, so the resolver skips all five variants,
issues no network request, leaves the cache untouched, and returns null. -/
theorem C5_empty_track_skips_all (artist_raw track_raw : String) (o : Oracle) (c : Cache)
    (h : normalize_string track_raw = "") :
    try_alternate_queries (normalize_string artist_raw) (normalize_string track_raw) o c =
      ⟨none, c, []⟩ := by
  rw [h]
  rfl

/-- Witness for C5: `"!!!"` normalizes to the empty string, and resolving it
issues no request and returns null. -/
theorem C5_witness :
    normalize_string "!!!" = "" ∧
      try_alternate_queries (normalize_string "The Beatles") (normalize_string "!!!")
        oracleEmpty [] = ⟨none, [], []⟩ :=
  ⟨rfl, C5_empty_track_skips_all "The Beatles" "!!!" oracleEmpty [] rfl⟩

/-- Counterexample to C1: the cache holds an explicit null under the base
normalized key `"a|t"`, yet the resolve call does not return that entry's
answer and does issue a network request — the null hit only skips variant
(a), variant (b) then queries the network and wins — and the resulting match
is written under the variant's key `"|t"`, not under the base key, whose
tombstone is left in place. -/
theorem C1_counterexample :
    ¬ ((try_alternate_queries "a" "t" oracleC1 [("a|t", none)]).result = none ∧
        (try_alternate_queries "a" "t" oracleC1 [("a|t", none)]).log = []) ∧
      (try_alternate_queries "a" "t" oracleC1 [("a|t", none)]).result = some ⟨"u1", "al1"⟩ ∧
      (try_alternate_queries "a" "t" oracleC1 [("a|t", none)]).log = ["t artist:"] ∧
      cacheFind "a|t" (try_alternate_queries "a" "t" oracleC1 [("a|t", none)]).cache =
        some none ∧
      cacheFind "|t" (try_alternate_queries "a" "t" oracleC1 [("a|t", none)]).cache =
        some (some ⟨"u1", "al1"⟩) := by
  decide

/-- C1 (amended): only a *positive* cache entry short-circuits the whole
resolve call — when the stripped track is non-empty and the cache maps the
base key (the stripped first variant's `"artist|track"`) to a match, resolve
returns it with no network traffic and no cache change.  A null entry merely
skips its variant.  Writes are per-variant: a queried variant's own key
receives exactly the variant's outcome — the match on success, the null
tombstone on exhaustion. -/
theorem C1_amended :
    (∀ (a t : String) (o : Oracle) (c : Cache) (m : ResolvedMatch),
        pyStrip t ≠ "" →
        cacheFind (pyStrip a ++ "|" ++ pyStrip t) c = some (some m) →
        try_alternate_queries a t o c = ⟨some m, c, []⟩) ∧
    (∀ (artist track : String) (o : Oracle) (c : Cache),
        cacheFind (artist ++ "|" ++ track) c = none →
        cacheFind (artist ++ "|" ++ track) (query_spotify_api artist track o c).cache =
          some ((query_spotify_api artist track o c).result)) := by
  constructor
  · intro a t o c m ht hfind
    simp only [try_alternate_queries, alternatesFor, tryLoop, if_neg ht]
    rw [query_hit (pyStrip a) (pyStrip t) o c (some m) hfind]
  · intro artist track o c h
    rw [query_miss artist track o c h]
    simp [cacheInsert, cacheFind]

/-- Witness for C1 (amended): a positive hit under the base key returns
immediately with no request, and a cache-missing key receives exactly the
query outcome under its own key. -/
theorem C1_witness :
    (pyStrip "t" ≠ "" ∧
        cacheFind (pyStrip "a" ++ "|" ++ pyStrip "t") [("a|t", some ⟨"u", "al"⟩)] =
          some (some ⟨"u", "al"⟩)) ∧
      try_alternate_queries "a" "t" oracleEmpty [("a|t", some ⟨"u", "al"⟩)] =
        ⟨some ⟨"u", "al"⟩, [("a|t", some ⟨"u", "al"⟩)], []⟩ ∧
      cacheFind ("x" ++ "|" ++ "y") (query_spotify_api "x" "y" oracleEmpty []).cache =
        some ((query_spotify_api "x" "y" oracleEmpty []).result) :=
  ⟨⟨by decide, by decide⟩,
   C1_amended.1 "a" "t" oracleEmpty _ ⟨"u", "al"⟩ (by decide) (by decide),
   C1_amended.2 "x" "y" oracleEmpty [] (by decide)⟩

/-- Counterexample to C2: resolving the pair `("a", "t")` twice in one run
issues two network requests, not at most one — the first resolve already
issues two (its first formulation returns an empty item list, the second
wins); the second resolve issues zero. -/
theorem C2_counterexample :
    (try_alternate_queries "a" "t" oracleC2 []).log.length +
        (try_alternate_queries "a" "t" oracleC2
          (try_alternate_queries "a" "t" oracleC2 []).cache).log.length = 2 ∧
      ¬ ((try_alternate_queries "a" "t" oracleC2 []).log.length +
          (try_alternate_queries "a" "t" oracleC2
            (try_alternate_queries "a" "t" oracleC2 []).cache).log.length ≤ 1) := by
  decide

/-- C2 (amended): once a key has any cached value (positive or null), a
query for that exact key is answered from the cache with no network request;
and resolving the same (artist, track) pair twice — in one run or against
the reloaded persisted cache, which is the same mapping — issues network
requests only during the first call: the second call issues zero requests,
returns the first call's result (including the null-tombstone case) and
leaves the cache unchanged. -/
theorem C2_amended :
    (∀ (artist track : String) (o : Oracle) (c : Cache) (v : Option ResolvedMatch),
        cacheFind (artist ++ "|" ++ track) c = some v →
        query_spotify_api artist track o c = ⟨v, c, []⟩) ∧
    (∀ (artist_norm track_norm : String) (o : Oracle) (c : Cache),
        try_alternate_queries artist_norm track_norm o
            (try_alternate_queries artist_norm track_norm o c).cache =
          ⟨(try_alternate_queries artist_norm track_norm o c).result,
           (try_alternate_queries artist_norm track_norm o c).cache, []⟩) :=
  ⟨fun artist track o c v h => query_hit artist track o c v h,
   fun artist_norm track_norm o c => tryLoop_idem (alternatesFor artist_norm track_norm) o c⟩

/-- Witness for C2 (amended): a tombstone under `"a|t"` answers the exact-key
query from the cache with no request. -/
theorem C2_witness :
    cacheFind ("a" ++ "|" ++ "t") [("a|t", none)] = some none ∧
      query_spotify_api "a" "t" oracleC2 [("a|t", none)] = ⟨none, [("a|t", none)], []⟩ :=
  ⟨by decide, C2_amended.1 "a" "t" oracleC2 [("a|t", none)] none (by decide)⟩

/-- Counterexample to C6: an event whose `additional_info` both names
`"spotify.com"` as its source and carries a recognised track-page reference
is skipped outright — no record is built from it at all, although the claim
promises a record built from the event. -/
theorem C6_counterexample :
    (infoGet entryC6skip.track_metadata).spotify_id =
        some "https://open.spotify.com/track/xyz" ∧
      containsSub "open.spotify.com/track/".data
        "https://open.spotify.com/track/xyz".data = true ∧
      (processEntry entryC6skip "user" "XX" oracleEmpty []).rec? = none := by
  decide

/-- C6 (amended): an event *not skipped as Spotify-sourced* whose raw `additional_info`
carries a `spotify_id` containing `"open.spotify.com/track/"` is converted by
the fast path: the record is built by `convert_lb_entry_to_spotify_format`
directly from the event, the resolver is never invoked (the cache is
untouched and no network request is issued), and the record's
`spotify_track_uri` is `"spotify:track:"` followed by the last `/`-separated
segment of the identifier. -/
theorem C6_fast_path (e : Entry) (username country_code : String) (o : Oracle) (c : Cache)
    (sid : String)
    (hms : (infoGet e.track_metadata).music_service ≠ some "spotify.com")
    (hsid : (infoGet e.track_metadata).spotify_id = some sid)
    (hurl : containsSub "open.spotify.com/track/".data sid.data = true) :
    processEntry e username country_code o c =
        ⟨some (convert_lb_entry_to_spotify_format e username country_code),
         false, none, c, []⟩ ∧
      (convert_lb_entry_to_spotify_format e username country_code).spotify_track_uri =
        some ("spotify:track:" ++ ⟨lastSegment '/' sid.data⟩) := by
  have href : hasTrackRef (infoGet e.track_metadata).spotify_id = true := by
    rw [hsid]
    simpa [hasTrackRef] using hurl
  constructor
  · simp [processEntry, hms, href]
  · simp [convert_lb_entry_to_spotify_format, hsid, hurl]

/-- Witness for C6: the fast path bypasses the resolver and derives the URI
from the embedded identifier. -/
theorem C6_witness :
    ((infoGet entryC6.track_metadata).music_service ≠ some "spotify.com" ∧
        (infoGet entryC6.track_metadata).spotify_id =
          some "https://open.spotify.com/track/abc" ∧
        containsSub "open.spotify.com/track/".data
          "https://open.spotify.com/track/abc".data = true) ∧
      processEntry entryC6 "user" "XX" oracleEmpty [] =
          ⟨some (convert_lb_entry_to_spotify_format entryC6 "user" "XX"),
           false, none, [], []⟩ ∧
      (convert_lb_entry_to_spotify_format entryC6 "user" "XX").spotify_track_uri =
        some ("spotify:track:" ++ ⟨lastSegment '/' "https://open.spotify.com/track/abc".data⟩) :=
  ⟨⟨by decide, rfl, by decide⟩,
   C6_fast_path entryC6 "user" "XX" oracleEmpty [] _ (by decide) rfl (by decide)⟩

/-- A Spotify-sourced event leaves the state untouched apart from the
skip flag. -/
theorem processEntry_eq_skip (e : Entry) (u cc : String) (o : Oracle) (c : Cache)
    (h1 : (infoGet e.track_metadata).music_service = some "spotify.com") :
    processEntry e u cc o c = ⟨none, true, none, c, []⟩ := by
  simp [processEntry, h1]

/-- The fast path of `processEntry`. -/
theorem processEntry_eq_fast (e : Entry) (u cc : String) (o : Oracle) (c : Cache)
    (h1 : (infoGet e.track_metadata).music_service ≠ some "spotify.com")
    (h2 : hasTrackRef (infoGet e.track_metadata).spotify_id = true) :
    processEntry e u cc o c =
      ⟨some (convert_lb_entry_to_spotify_format e u cc), false, none, c, []⟩ := by
  simp [processEntry, h1, h2]

/-- The resolver branch of `processEntry` on a positive resolution. -/
theorem processEntry_eq_hit (e : Entry) (u cc : String) (o : Oracle) (c : Cache)
    (m : ResolvedMatch)
    (h1 : (infoGet e.track_metadata).music_service ≠ some "spotify.com")
    (h2 : hasTrackRef (infoGet e.track_metadata).spotify_id = false)
    (hm : (try_alternate_queries
        (normalize_string (pyStrip (e.track_metadata.artist_name.getD "")))
        (normalize_string (pyStrip (e.track_metadata.track_name.getD ""))) o c).result =
      some m) :
    processEntry e u cc o c =
      ⟨some { ts := epochIso e.listened_at ++ "Z", username := u,
              platform := "ListenBrainz Importer",
              ms_played := ((infoGet e.track_metadata).duration_ms).getD 0,
              conn_country := cc, ip_addr_decrypted := none, user_agent_decrypted := none,
              master_metadata_track_name := pyStrip (e.track_metadata.track_name.getD ""),
              master_metadata_album_artist_name := pyStrip (e.track_metadata.artist_name.getD ""),
              master_metadata_album_album_name := m.album_name,
              spotify_track_uri := some m.spotify_track_uri, episode_name := none,
              episode_show_name := none, spotify_episode_uri := none,
              reason_start := "trackdone", reason_end := none, shuffle := false,
              skipped := false, offline := true,
              offline_timestamp := e.listened_at * 1000, incognito_mode := false },
       false, none,
       (try_alternate_queries
          (normalize_string (pyStrip (e.track_metadata.artist_name.getD "")))
          (normalize_string (pyStrip (e.track_metadata.track_name.getD ""))) o c).cache,
       (try_alternate_queries
          (normalize_string (pyStrip (e.track_metadata.artist_name.getD "")))
          (normalize_string (pyStrip (e.track_metadata.track_name.getD ""))) o c).log⟩ := by
  simp [processEntry, h1, h2, hm]

/-- The resolver branch of `processEntry` on a null resolution. -/
theorem processEntry_eq_miss (e : Entry) (u cc : String) (o : Oracle) (c : Cache)
    (h1 : (infoGet e.track_metadata).music_service ≠ some "spotify.com")
    (h2 : hasTrackRef (infoGet e.track_metadata).spotify_id = false)
    (hm : (try_alternate_queries
        (normalize_string (pyStrip (e.track_metadata.artist_name.getD "")))
        (normalize_string (pyStrip (e.track_metadata.track_name.getD ""))) o c).result =
      none) :
    processEntry e u cc o c =
      ⟨some { ts := epochIso e.listened_at ++ "Z", username := u,
              platform := "ListenBrainz Importer",
              ms_played := ((infoGet e.track_metadata).duration_ms).getD 0,
              conn_country := cc, ip_addr_decrypted := none, user_agent_decrypted := none,
              master_metadata_track_name := pyStrip (e.track_metadata.track_name.getD ""),
              master_metadata_album_artist_name := pyStrip (e.track_metadata.artist_name.getD ""),
              master_metadata_album_album_name := pyStrip (e.track_metadata.release_name.getD ""),
              spotify_track_uri := none, episode_name := none,
              episode_show_name := none, spotify_episode_uri := none,
              reason_start := "trackdone", reason_end := none, shuffle := false,
              skipped := false, offline := true,
              offline_timestamp := e.listened_at * 1000, incognito_mode := false },
       false,
       some (pyStrip (e.track_metadata.artist_name.getD "") ++ " \u2013 " ++
         pyStrip (e.track_metadata.track_name.getD "")),
       (try_alternate_queries
          (normalize_string (pyStrip (e.track_metadata.artist_name.getD "")))
          (normalize_string (pyStrip (e.track_metadata.track_name.getD ""))) o c).cache,
       (try_alternate_queries
          (normalize_string (pyStrip (e.track_metadata.artist_name.getD "")))
          (normalize_string (pyStrip (e.track_metadata.track_name.getD ""))) o c).log⟩ := by
  simp [processEntry, h1, h2, hm]

/-- C7: every record the pipeline produces has the fixed derived fields of
the spec — `ts` is the event's epoch time rendered ISO-8601 UTC with a
trailing `"Z"`, `ms_played` defaults to 0 when `duration_ms` is absent,
`shuffle`/`skipped`/`incognito_mode` are false, `offline` is true, and
`offline_timestamp` is `listened_at × 1000`; and the spec's end-to-end
example event (epoch 1700000000, resolved to `spotify:track:abc123` with
album `"Let It Be"`) yields exactly the expected record values. -/
theorem C7_record_fields :
    (∀ (e : Entry) (u cc : String) (o : Oracle) (c : Cache) (r : OutputRecord),
        (processEntry e u cc o c).rec? = some r →
        r.ts = epochIso e.listened_at ++ "Z" ∧
        r.ms_played = ((infoGet e.track_metadata).duration_ms).getD 0 ∧
        r.shuffle = false ∧ r.skipped = false ∧ r.incognito_mode = false ∧
        r.offline = true ∧ r.offline_timestamp = e.listened_at * 1000) ∧
    ((processEntry entryBeatles "user" "XX" oracleBeatles []).rec? = some recBeatles ∧
      recBeatles.ts = "2023-11-14T22:13:20Z" ∧
      recBeatles.spotify_track_uri = some "spotify:track:abc123" ∧
      recBeatles.master_metadata_album_album_name = "Let It Be" ∧
      recBeatles.offline_timestamp = 1700000000000) := by
  constructor
  · intro e u cc o c r h
    by_cases h1 : (infoGet e.track_metadata).music_service = some "spotify.com"
    · rw [processEntry_eq_skip e u cc o c h1] at h
      exact Option.noConfusion h
    · cases h2 : hasTrackRef (infoGet e.track_metadata).spotify_id with
      | true =>
        rw [processEntry_eq_fast e u cc o c h1 h2] at h
        have h' : some (convert_lb_entry_to_spotify_format e u cc) = some r := h
        injection h' with h3
        subst h3
        exact ⟨rfl, rfl, rfl, rfl, rfl, rfl, rfl⟩
      | false =>
        cases hm : (try_alternate_queries
            (normalize_string (pyStrip (e.track_metadata.artist_name.getD "")))
            (normalize_string (pyStrip (e.track_metadata.track_name.getD ""))) o c).result with
        | some m =>
          rw [processEntry_eq_hit e u cc o c m h1 h2 hm] at h
          have h' : some _ = some r := h
          injection h' with h3
          subst h3
          exact ⟨rfl, rfl, rfl, rfl, rfl, rfl, rfl⟩
        | none =>
          rw [processEntry_eq_miss e u cc o c h1 h2 hm] at h
          have h' : some _ = some r := h
          injection h' with h3
          subst h3
          exact ⟨rfl, rfl, rfl, rfl, rfl, rfl, rfl⟩
  · exact ⟨by decide, rfl, rfl, rfl, rfl⟩

/-- Witness for C7: the general field properties applied to the concrete
example record. -/
theorem C7_witness :
    (processEntry entryBeatles "user" "XX" oracleBeatles []).rec? = some recBeatles ∧
      (recBeatles.ts = epochIso entryBeatles.listened_at ++ "Z" ∧
        recBeatles.ms_played = ((infoGet entryBeatles.track_metadata).duration_ms).getD 0 ∧
        recBeatles.shuffle = false ∧ recBeatles.skipped = false ∧
        recBeatles.incognito_mode = false ∧ recBeatles.offline = true ∧
        recBeatles.offline_timestamp = entryBeatles.listened_at * 1000) :=
  ⟨by decide,
   C7_record_fields.1 entryBeatles "user" "XX" oracleBeatles [] recBeatles (by decide)⟩

/-- C8: a malformed input line or event is contained to that line — it
contributes no output record, no unmatched-set entry, no count, no cache
mutation and no request, and the batch continues exactly as if the line were
absent. -/
theorem C8_malformed_line_contained (u cc : String) (o : Oracle)
    (xs ys : List (Option Entry)) (st : RunOut) :
    convertLoop u cc o (xs ++ none :: ys) st = convertLoop u cc o (xs ++ ys) st := by
  induction xs generalizing st with
  | nil => rfl
  | cons x rest ih =>
    cases x with
    | none => simpa only [List.cons_append, convertLoop] using ih st
    | some e =>
      simp only [List.cons_append, convertLoop]
      exact ih _

/-- C9: an event whose `additional_info.music_service` is `"spotify.com"` is
skipped entirely: processing it changes nothing in the run state — no output
record, no resolver call, no request, no unmatched entry — except the
skipped-Spotify counter, which increases by one. -/
theorem C9_spotify_source_skipped (u cc : String) (o : Oracle) (e : Entry)
    (rest : List (Option Entry)) (st : RunOut)
    (h : (infoGet e.track_metadata).music_service = some "spotify.com") :
    convertLoop u cc o (some e :: rest) st =
      convertLoop u cc o rest
        { st with skipped_spotify := st.skipped_spotify + 1 } := by
  have hp : processEntry e u cc o st.cache = ⟨none, true, none, st.cache, []⟩ := by
    simp [processEntry, h]
  simp only [convertLoop, hp]
  congr 1
  cases st
  simp [stepState]

/-- Witness for C9: one Spotify-sourced event bumps only the skipped
counter. -/
theorem C9_witness :
    (infoGet entrySpot.track_metadata).music_service = some "spotify.com" ∧
      convertLoop "user" "XX" oracleEmpty [some entrySpot] ⟨[], [], 0, 0, [], []⟩ =
        convertLoop "user" "XX" oracleEmpty [] ⟨[], [], 0, 0 + 1, [], []⟩ :=
  ⟨rfl,
   C9_spotify_source_skipped "user" "XX" oracleEmpty entrySpot [] ⟨[], [], 0, 0, [], []⟩ rfl⟩
